import Mathlib

set_option maxRecDepth 4096

/-!
Verification of the `splotr` MP3 frame-header decoder (src/splotr.go).

The Go code is shallowly embedded: bytes are `Nat` values reduced modulo 256
(the `uint8` type), byte buffers are `List Nat`, and the decoder
`DeserializeFrame`, which in Go indexes `fr[0] .. fr[3]` without a length
check, is embedded as a function into an explicit result type in which a Go
runtime index-out-of-range panic is the constructor `indexOutOfRange`.
-/

namespace Splotr

/-- Mp3FrameHeader embeds the Go struct `Mp3FrameHeader` (src/splotr.go lines
87-101).  All fields hold unsigned machine integers; `uint8`/`uint16` values
are represented as `Nat`. -/
structure Mp3FrameHeader where
  Emphasis : Nat
  Original : Nat
  Copyright : Nat
  ModeExt : Nat
  ChannelMode : Nat
  Unused : Nat
  IsPadded : Nat
  Srfi : Nat
  BitrateIdx : Nat
  CrcProtected : Nat
  LayerDesc : Nat
  AudioVer : Nat
  FrameSync : Nat
  deriving DecidableEq

/-- DecodeError names the error the specification attributes to the decoder.
The Go source itself never constructs such a value; the type exists so that
the specification's claimed error behaviour can be stated and compared with
the source's actual behaviour. -/
inductive DecodeError where
  | TruncatedInput
  deriving DecidableEq

/-- DecodeResult is the observable outcome of running `DeserializeFrame`:
either a header, a Go runtime index-out-of-range panic (what `fr[i]` does in
Go when `i ≥ len(fr)`), or a returned error value (claimed by the
specification, never produced by the source). -/
inductive DecodeResult where
  | ok (h : Mp3FrameHeader)
  | indexOutOfRange
  | err (e : DecodeError)
  deriving DecidableEq

/-- decodeBytes is the field-extraction body of `DeserializeFrame`
(src/splotr.go lines 181-200), applied to the four bytes `b0..b3`.  Each
argument is reduced modulo 256, which is what the Go type `uint8` guarantees
for `fr[i]`.  The Go line `hdr.FrameSync |= ((uint16(b2) >> 5) | (uint16(b3)
<< 3))` ORs into a zero-initialised field, so it is a plain assignment; the
`uint16` arithmetic cannot overflow (`b3 << 3 ≤ 2040 < 2^16`), so no modulus
is needed there. -/
def decodeBytes (v0 v1 v2 v3 : Nat) : Mp3FrameHeader :=
  let b0 := v0 % 256
  let b1 := v1 % 256
  let b2 := v2 % 256
  let b3 := v3 % 256
  { Emphasis := b0 &&& 3
    Original := (b0 >>> 2) &&& 1
    Copyright := (b0 >>> 3) &&& 1
    ModeExt := (b0 >>> 4) &&& 3
    ChannelMode := (b0 >>> 6) &&& 3
    Unused := b1 &&& 1
    IsPadded := (b1 >>> 1) &&& 1
    Srfi := (b1 >>> 2) &&& 3
    BitrateIdx := (b1 >>> 4) &&& 0xF
    CrcProtected := b2 &&& 1
    LayerDesc := (b2 >>> 1) &&& 3
    AudioVer := (b2 >>> 3) &&& 3
    FrameSync := (b2 >>> 5) ||| (b3 <<< 3) }

/-- DeserializeFrame embeds the Go function `DeserializeFrame` (src/splotr.go
lines 174-202).  The Go body reads `fr[0]`, `fr[1]`, `fr[2]`, `fr[3]` before
doing anything else, so on a buffer with fewer than 4 elements the first
out-of-bounds read raises a runtime index-out-of-range panic, embedded here
as `DecodeResult.indexOutOfRange`; otherwise the populated header is
returned. -/
def DeserializeFrame (fr : List Nat) : DecodeResult :=
  match fr with
  | v0 :: v1 :: v2 :: v3 :: _ => .ok (decodeBytes v0 v1 v2 v3)
  | _ => .indexOutOfRange

/-- stripSentinel embeds the sentinel-stripping step of `Load` (src/splotr.go
lines 130-134): if the buffer is non-empty, its last byte is overwritten with
the zero byte. -/
def stripSentinel (data : List Nat) : List Nat :=
  if data.length > 0 then data.set (data.length - 1) 0 else data

/-- LoadDecode is the decoding path of `Load` (src/splotr.go lines 130-148):
the file contents are sentinel-stripped in place and the very same buffer is
then passed to `DeserializeFrame`.  The surrounding I/O (reading the file,
stat-ing its size, printing) does not influence the decoded header. -/
def LoadDecode (data : List Nat) : DecodeResult :=
  DeserializeFrame (stripSentinel data)

/-- Modelled from the spec: the repository contains no encoder, so
SerializeFrame is the canonical encoder determined by the fixed bit layout of
section 4.1 — each field is packed back into its byte position and width,
with frameSync split into its low 3 bits (top of byte 2) and high 8 bits
(byte 3). -/
def SerializeFrame (h : Mp3FrameHeader) : List Nat :=
  [ h.Emphasis ||| (h.Original <<< 2) ||| (h.Copyright <<< 3) |||
      (h.ModeExt <<< 4) ||| (h.ChannelMode <<< 6)
  , h.Unused ||| (h.IsPadded <<< 1) ||| (h.Srfi <<< 2) ||| (h.BitrateIdx <<< 4)
  , h.CrcProtected ||| (h.LayerDesc <<< 1) ||| (h.AudioVer <<< 3) |||
      ((h.FrameSync &&& 7) <<< 5)
  , h.FrameSync >>> 3 ]

/-! ### Shared helper lemmas -/

@[simp]
theorem decodeBytes_Emphasis (v0 v1 v2 v3 : Nat) :
    (decodeBytes v0 v1 v2 v3).Emphasis = (v0 % 256) &&& 3 := rfl

@[simp]
theorem decodeBytes_Original (v0 v1 v2 v3 : Nat) :
    (decodeBytes v0 v1 v2 v3).Original = ((v0 % 256) >>> 2) &&& 1 := rfl

@[simp]
theorem decodeBytes_Copyright (v0 v1 v2 v3 : Nat) :
    (decodeBytes v0 v1 v2 v3).Copyright = ((v0 % 256) >>> 3) &&& 1 := rfl

@[simp]
theorem decodeBytes_ModeExt (v0 v1 v2 v3 : Nat) :
    (decodeBytes v0 v1 v2 v3).ModeExt = ((v0 % 256) >>> 4) &&& 3 := rfl

@[simp]
theorem decodeBytes_ChannelMode (v0 v1 v2 v3 : Nat) :
    (decodeBytes v0 v1 v2 v3).ChannelMode = ((v0 % 256) >>> 6) &&& 3 := rfl

@[simp]
theorem decodeBytes_Unused (v0 v1 v2 v3 : Nat) :
    (decodeBytes v0 v1 v2 v3).Unused = (v1 % 256) &&& 1 := rfl

@[simp]
theorem decodeBytes_IsPadded (v0 v1 v2 v3 : Nat) :
    (decodeBytes v0 v1 v2 v3).IsPadded = ((v1 % 256) >>> 1) &&& 1 := rfl

@[simp]
theorem decodeBytes_Srfi (v0 v1 v2 v3 : Nat) :
    (decodeBytes v0 v1 v2 v3).Srfi = ((v1 % 256) >>> 2) &&& 3 := rfl

@[simp]
theorem decodeBytes_BitrateIdx (v0 v1 v2 v3 : Nat) :
    (decodeBytes v0 v1 v2 v3).BitrateIdx = ((v1 % 256) >>> 4) &&& 15 := rfl

@[simp]
theorem decodeBytes_CrcProtected (v0 v1 v2 v3 : Nat) :
    (decodeBytes v0 v1 v2 v3).CrcProtected = (v2 % 256) &&& 1 := rfl

@[simp]
theorem decodeBytes_LayerDesc (v0 v1 v2 v3 : Nat) :
    (decodeBytes v0 v1 v2 v3).LayerDesc = ((v2 % 256) >>> 1) &&& 3 := rfl

@[simp]
theorem decodeBytes_AudioVer (v0 v1 v2 v3 : Nat) :
    (decodeBytes v0 v1 v2 v3).AudioVer = ((v2 % 256) >>> 3) &&& 3 := rfl

@[simp]
theorem decodeBytes_FrameSync (v0 v1 v2 v3 : Nat) :
    (decodeBytes v0 v1 v2 v3).FrameSync =
      ((v2 % 256) >>> 5) ||| ((v3 % 256) <<< 3) := rfl

theorem dsf_cons (v0 v1 v2 v3 : Nat) (t : List Nat) :
    DeserializeFrame (v0 :: v1 :: v2 :: v3 :: t) =
      DecodeResult.ok (decodeBytes v0 v1 v2 v3) := rfl

theorem dsf_short : ∀ (fr : List Nat), fr.length < 4 →
    DeserializeFrame fr = DecodeResult.indexOutOfRange
  | [], _ => rfl
  | [_], _ => rfl
  | [_, _], _ => rfl
  | [_, _, _], _ => rfl
  | _ :: _ :: _ :: _ :: _, h => absurd h (by simp)

theorem dsf_getD : ∀ (fr : List Nat), 4 ≤ fr.length →
    DeserializeFrame fr =
      DecodeResult.ok
        (decodeBytes (fr.getD 0 0) (fr.getD 1 0) (fr.getD 2 0) (fr.getD 3 0))
  | _ :: _ :: _ :: _ :: _, _ => rfl
  | [], h => absurd h (by simp)
  | [_], h => absurd h (by simp)
  | [_, _], h => absurd h (by simp)
  | [_, _, _], h => absurd h (by simp)

theorem dsf_ok_elim {fr : List Nat} {h : Mp3FrameHeader}
    (e : DeserializeFrame fr = DecodeResult.ok h) :
    ∃ v0 v1 v2 v3 t, fr = v0 :: v1 :: v2 :: v3 :: t ∧
      h = decodeBytes v0 v1 v2 v3 := by
  match fr with
  | [] => exact absurd e (by simp [DeserializeFrame])
  | [_] => exact absurd e (by simp [DeserializeFrame])
  | [_, _] => exact absurd e (by simp [DeserializeFrame])
  | [_, _, _] => exact absurd e (by simp [DeserializeFrame])
  | v0 :: v1 :: v2 :: v3 :: t =>
    rw [dsf_cons] at e
    exact ⟨v0, v1, v2, v3, t, rfl, (DecodeResult.ok.injEq _ _ ▸ e).symm⟩

theorem or_shiftRight (a b n : Nat) :
    (a ||| b) >>> n = (a >>> n) ||| (b >>> n) := by
  apply Nat.eq_of_testBit_eq
  intro i
  simp [Nat.testBit_shiftRight, Nat.testBit_or]

theorem and_seven_eq_mod (a : Nat) : a &&& 7 = a % 8 := by
  simpa using Nat.and_pow_two_sub_one_eq_mod a 3

theorem shiftLeft3_and_seven (b : Nat) : (b <<< 3) &&& 7 = 0 := by
  rw [Nat.shiftLeft_eq, and_seven_eq_mod]
  simp [Nat.mul_mod_left]

theorem shiftRight3_of_lt {a : Nat} (h : a < 8) : a >>> 3 = 0 := by
  rw [Nat.shiftRight_eq_div_pow]
  exact Nat.div_eq_of_lt h

theorem shiftRight5_lt {b : Nat} (h : b < 256) : b >>> 5 < 8 := by
  rw [Nat.shiftRight_eq_div_pow]
  have hp : (2 : Nat) ^ 5 = 32 := rfl
  rw [hp]
  omega

theorem framesync_shiftRight {b2 b3 : Nat} (h2 : b2 < 256) :
    ((b2 >>> 5) ||| (b3 <<< 3)) >>> 3 = b3 := by
  rw [or_shiftRight, shiftRight3_of_lt (shiftRight5_lt h2),
    Nat.shiftLeft_shiftRight]
  simp

theorem framesync_and_seven {b2 b3 : Nat} (h2 : b2 < 256) :
    ((b2 >>> 5) ||| (b3 <<< 3)) &&& 7 = b2 >>> 5 := by
  rw [Nat.and_distrib_right, shiftLeft3_and_seven, and_seven_eq_mod,
    Nat.mod_eq_of_lt (shiftRight5_lt h2)]
  simp

theorem framesync_le {b2 b3 : Nat} (h2 : b2 < 256) (h3 : b3 < 256) :
    ((b2 >>> 5) ||| (b3 <<< 3)) ≤ 0x7FF := by
  have hp : (2 : Nat) ^ 11 = 2048 := rfl
  have hlt : ((b2 >>> 5) ||| (b3 <<< 3)) < 2 ^ 11 := by
    apply Nat.or_lt_two_pow
    · have := shiftRight5_lt h2
      omega
    · rw [Nat.shiftLeft_eq]
      have hq : (2 : Nat) ^ 3 = 8 := rfl
      rw [hq, hp]
      omega
  omega

theorem byte0_roundtrip : ∀ x < 256,
    (x &&& 3) ||| (((x >>> 2) &&& 1) <<< 2) ||| (((x >>> 3) &&& 1) <<< 3) |||
      (((x >>> 4) &&& 3) <<< 4) ||| (((x >>> 6) &&& 3) <<< 6) = x := by decide

theorem byte1_roundtrip : ∀ x < 256,
    (x &&& 1) ||| (((x >>> 1) &&& 1) <<< 1) ||| (((x >>> 2) &&& 3) <<< 2) |||
      (((x >>> 4) &&& 15) <<< 4) = x := by decide

theorem byte2_roundtrip : ∀ x < 256,
    (x &&& 1) ||| (((x >>> 1) &&& 3) <<< 1) ||| (((x >>> 3) &&& 3) <<< 3) |||
      ((x >>> 5) <<< 5) = x := by decide

theorem exists_four_cons : ∀ (fr : List Nat), 4 ≤ fr.length →
    ∃ v0 v1 v2 v3 t, fr = v0 :: v1 :: v2 :: v3 :: t
  | v0 :: v1 :: v2 :: v3 :: t, _ => ⟨v0, v1, v2, v3, t, rfl⟩
  | [], h => absurd h (by simp)
  | [_], h => absurd h (by simp)
  | [_, _], h => absurd h (by simp)
  | [_, _, _], h => absurd h (by simp)

/-! ### Claim theorems -/

/-- C1: for every buffer of length at least 4 (written as the four leading
bytes followed by an arbitrary tail), `DeserializeFrame` extracts each field
by the fixed bit layout: from byte `b0`, emphasis, original, copyright,
modeExtension and channelMode; from byte `b1`, unused, isPadded,
samplingRateIndex and bitrateIndex; from byte `b2`, crcProtected,
layerDescription and audioVersion; and `frameSync = (b2 >>> 5) ||| (b3 <<< 3)`,
combining the top 3 bits of `b2` with all 8 bits of `b3`. -/
theorem C1_bit_layout (b0 b1 b2 b3 : Nat) (rest : List Nat)
    (h0 : b0 < 256) (h1 : b1 < 256) (h2 : b2 < 256) (h3 : b3 < 256) :
    DeserializeFrame (b0 :: b1 :: b2 :: b3 :: rest) =
      DecodeResult.ok
        { Emphasis := b0 &&& 3
          Original := (b0 >>> 2) &&& 1
          Copyright := (b0 >>> 3) &&& 1
          ModeExt := (b0 >>> 4) &&& 3
          ChannelMode := (b0 >>> 6) &&& 3
          Unused := b1 &&& 1
          IsPadded := (b1 >>> 1) &&& 1
          Srfi := (b1 >>> 2) &&& 3
          BitrateIdx := (b1 >>> 4) &&& 0xF
          CrcProtected := b2 &&& 1
          LayerDesc := (b2 >>> 1) &&& 3
          AudioVer := (b2 >>> 3) &&& 3
          FrameSync := (b2 >>> 5) ||| (b3 <<< 3) } := by
  simp [DeserializeFrame, decodeBytes, Nat.mod_eq_of_lt h0, Nat.mod_eq_of_lt h1,
    Nat.mod_eq_of_lt h2, Nat.mod_eq_of_lt h3]

/-- Witness for C1 at the concrete buffer `0x40 0x20 0xFB 0xFF`. -/
theorem C1_bit_layout_witness :
    DeserializeFrame [0x40, 0x20, 0xFB, 0xFF] =
      DecodeResult.ok
        { Emphasis := 0x40 &&& 3
          Original := (0x40 >>> 2) &&& 1
          Copyright := (0x40 >>> 3) &&& 1
          ModeExt := (0x40 >>> 4) &&& 3
          ChannelMode := (0x40 >>> 6) &&& 3
          Unused := 0x20 &&& 1
          IsPadded := (0x20 >>> 1) &&& 1
          Srfi := (0x20 >>> 2) &&& 3
          BitrateIdx := (0x20 >>> 4) &&& 0xF
          CrcProtected := 0xFB &&& 1
          LayerDesc := (0xFB >>> 1) &&& 3
          AudioVer := (0xFB >>> 3) &&& 3
          FrameSync := (0xFB >>> 5) ||| (0xFF <<< 3) } :=
  C1_bit_layout 0x40 0x20 0xFB 0xFF [] (by decide) (by decide) (by decide)
    (by decide)

/-- C2 counterexample: on the empty buffer the decoder does not fail with a
`TruncatedInput` error value — the Go code performs an unchecked `fr[0]`
read, which is a runtime index-out-of-range panic (an abort), exactly what
the claim says does not happen. -/
theorem C2_counterexample :
    DeserializeFrame [] = DecodeResult.indexOutOfRange ∧
      DeserializeFrame [] ≠ DecodeResult.err DecodeError.TruncatedInput := by
  refine ⟨rfl, ?_⟩
  decide

/-- C2 (amended): for every buffer with fewer than 4 bytes the decoder aborts
with a runtime index-out-of-range panic — it returns no `TruncatedInput`
error value and no fabricated header — and for every buffer of length at
least 4 it succeeds, producing the header obtained by the fixed bit
extraction of the first four bytes, with reserved or invalid field values
passed through unchanged. -/
theorem C2_short_input_behaviour :
    (∀ fr : List Nat, fr.length < 4 →
       DeserializeFrame fr = DecodeResult.indexOutOfRange ∧
         DeserializeFrame fr ≠ DecodeResult.err DecodeError.TruncatedInput) ∧
    (∀ fr : List Nat, 4 ≤ fr.length →
       DeserializeFrame fr =
         DecodeResult.ok
           (decodeBytes (fr.getD 0 0) (fr.getD 1 0) (fr.getD 2 0)
             (fr.getD 3 0))) := by
  constructor
  · intro fr h
    refine ⟨dsf_short fr h, ?_⟩
    rw [dsf_short fr h]
    simp
  · intro fr h
    exact dsf_getD fr h

/-- Witness for C2 at the concrete buffers `[0xFF, 0xFF, 0xFF]` (short) and
`[0xFF, 0xFF, 0xFF, 0xFF]` (long enough). -/
theorem C2_short_input_behaviour_witness :
    (DeserializeFrame [0xFF, 0xFF, 0xFF] = DecodeResult.indexOutOfRange ∧
       DeserializeFrame [0xFF, 0xFF, 0xFF] ≠
         DecodeResult.err DecodeError.TruncatedInput) ∧
    DeserializeFrame [0xFF, 0xFF, 0xFF, 0xFF] =
      DecodeResult.ok (decodeBytes 0xFF 0xFF 0xFF 0xFF) :=
  ⟨C2_short_input_behaviour.1 [0xFF, 0xFF, 0xFF] (by decide),
   C2_short_input_behaviour.2 [0xFF, 0xFF, 0xFF, 0xFF] (by decide)⟩

/-- C3: the three bit-exact scenarios — all-ones bytes give every field at
its width's maximum, all-zero bytes give every field 0, and
`0x40 0x20 0xFB 0xFF` gives audioVersion 3, layerDescription 1,
crcProtected 1 and frameSync `0x7FF`. -/
theorem C3_bit_exact_scenarios :
    DeserializeFrame [0xFF, 0xFF, 0xFF, 0xFF] =
      DecodeResult.ok ⟨3, 1, 1, 3, 3, 1, 1, 3, 15, 1, 3, 3, 0x7FF⟩ ∧
    DeserializeFrame [0x00, 0x00, 0x00, 0x00] =
      DecodeResult.ok ⟨0, 0, 0, 0, 0, 0, 0, 0, 0, 0, 0, 0, 0⟩ ∧
    ∃ h : Mp3FrameHeader,
      DeserializeFrame [0x40, 0x20, 0xFB, 0xFF] = DecodeResult.ok h ∧
        h.AudioVer = 3 ∧ h.LayerDesc = 1 ∧ h.CrcProtected = 1 ∧
          h.FrameSync = 0x7FF :=
  ⟨by decide, by decide, decodeBytes 0x40 0x20 0xFB 0xFF, rfl, by decide,
   by decide, by decide, by decide⟩

/-- C4: only the first 4 bytes influence the result — two sufficiently long
buffers with equal 4-byte prefixes decode equally, and appending trailing
bytes never changes the decoded header. -/
theorem C4_first_four_bytes :
    (∀ fr1 fr2 : List Nat, 4 ≤ fr1.length → 4 ≤ fr2.length →
       fr1.take 4 = fr2.take 4 →
       DeserializeFrame fr1 = DeserializeFrame fr2) ∧
    (∀ fr rest : List Nat, 4 ≤ fr.length →
       DeserializeFrame (fr ++ rest) = DeserializeFrame fr) := by
  constructor
  · intro fr1 fr2 h1 h2 ht
    obtain ⟨a0, a1, a2, a3, t1, rfl⟩ := exists_four_cons fr1 h1
    obtain ⟨b0, b1, b2, b3, t2, rfl⟩ := exists_four_cons fr2 h2
    simp at ht
    obtain ⟨e0, e1, e2, e3⟩ := ht
    subst e0
    subst e1
    subst e2
    subst e3
    rfl
  · intro fr rest h
    obtain ⟨a0, a1, a2, a3, t, rfl⟩ := exists_four_cons fr h
    rfl

/-- Witness for C4: appending a byte to a 4-byte buffer leaves the decoded
result unchanged. -/
theorem C4_first_four_bytes_witness :
    DeserializeFrame [1, 2, 3, 4, 5] = DeserializeFrame [1, 2, 3, 4] :=
  C4_first_four_bytes.2 [1, 2, 3, 4] [5] (by decide)

/-- C5: every field of a successfully decoded header fits its declared bit
width — the 2-bit fields are at most 3, the 1-bit fields at most 1,
bitrateIndex at most 15 and frameSync at most `0x7FF`. -/
theorem C5_field_bounds (fr : List Nat) (h : Mp3FrameHeader)
    (e : DeserializeFrame fr = DecodeResult.ok h) :
    h.Emphasis ≤ 3 ∧ h.ChannelMode ≤ 3 ∧ h.ModeExt ≤ 3 ∧ h.Srfi ≤ 3 ∧
      h.LayerDesc ≤ 3 ∧ h.AudioVer ≤ 3 ∧ h.Original ≤ 1 ∧ h.Copyright ≤ 1 ∧
      h.Unused ≤ 1 ∧ h.IsPadded ≤ 1 ∧ h.CrcProtected ≤ 1 ∧
      h.BitrateIdx ≤ 15 ∧ h.FrameSync ≤ 0x7FF := by
  obtain ⟨v0, v1, v2, v3, t, rfl, rfl⟩ := dsf_ok_elim e
  refine ⟨Nat.and_le_right, Nat.and_le_right, Nat.and_le_right,
    Nat.and_le_right, Nat.and_le_right, Nat.and_le_right, Nat.and_le_right,
    Nat.and_le_right, Nat.and_le_right, Nat.and_le_right, Nat.and_le_right,
    Nat.and_le_right, ?_⟩
  exact framesync_le (Nat.mod_lt _ (by norm_num)) (Nat.mod_lt _ (by norm_num))

/-- Witness for C5 at the all-ones buffer. -/
theorem C5_field_bounds_witness :
    (decodeBytes 0xFF 0xFF 0xFF 0xFF).Emphasis ≤ 3 ∧
      (decodeBytes 0xFF 0xFF 0xFF 0xFF).ChannelMode ≤ 3 ∧
      (decodeBytes 0xFF 0xFF 0xFF 0xFF).ModeExt ≤ 3 ∧
      (decodeBytes 0xFF 0xFF 0xFF 0xFF).Srfi ≤ 3 ∧
      (decodeBytes 0xFF 0xFF 0xFF 0xFF).LayerDesc ≤ 3 ∧
      (decodeBytes 0xFF 0xFF 0xFF 0xFF).AudioVer ≤ 3 ∧
      (decodeBytes 0xFF 0xFF 0xFF 0xFF).Original ≤ 1 ∧
      (decodeBytes 0xFF 0xFF 0xFF 0xFF).Copyright ≤ 1 ∧
      (decodeBytes 0xFF 0xFF 0xFF 0xFF).Unused ≤ 1 ∧
      (decodeBytes 0xFF 0xFF 0xFF 0xFF).IsPadded ≤ 1 ∧
      (decodeBytes 0xFF 0xFF 0xFF 0xFF).CrcProtected ≤ 1 ∧
      (decodeBytes 0xFF 0xFF 0xFF 0xFF).BitrateIdx ≤ 15 ∧
      (decodeBytes 0xFF 0xFF 0xFF 0xFF).FrameSync ≤ 0x7FF :=
  C5_field_bounds [0xFF, 0xFF, 0xFF, 0xFF] (decodeBytes 0xFF 0xFF 0xFF 0xFF)
    rfl

/-- C6: the canonical encoder determined by the fixed bit layout inverts the
decoder — for every 4-byte buffer, packing the decoded fields back into their
byte positions and widths reproduces the buffer exactly. -/
theorem C6_roundtrip (b0 b1 b2 b3 : Nat)
    (h0 : b0 < 256) (h1 : b1 < 256) (h2 : b2 < 256) (h3 : b3 < 256) :
    ∃ h : Mp3FrameHeader,
      DeserializeFrame [b0, b1, b2, b3] = DecodeResult.ok h ∧
        SerializeFrame h = [b0, b1, b2, b3] := by
  refine ⟨decodeBytes b0 b1 b2 b3, rfl, ?_⟩
  simp only [SerializeFrame, decodeBytes_Emphasis, decodeBytes_Original,
    decodeBytes_Copyright, decodeBytes_ModeExt, decodeBytes_ChannelMode,
    decodeBytes_Unused, decodeBytes_IsPadded, decodeBytes_Srfi,
    decodeBytes_BitrateIdx, decodeBytes_CrcProtected, decodeBytes_LayerDesc,
    decodeBytes_AudioVer, decodeBytes_FrameSync]
  rw [Nat.mod_eq_of_lt h0, Nat.mod_eq_of_lt h1, Nat.mod_eq_of_lt h2,
    Nat.mod_eq_of_lt h3]
  rw [framesync_and_seven h2, framesync_shiftRight h2]
  rw [byte0_roundtrip b0 h0, byte1_roundtrip b1 h1, byte2_roundtrip b2 h2]

/-- Witness for C6 at the concrete buffer `0x40 0x20 0xFB 0xFF`. -/
theorem C6_roundtrip_witness :
    ∃ h : Mp3FrameHeader,
      DeserializeFrame [0x40, 0x20, 0xFB, 0xFF] = DecodeResult.ok h ∧
        SerializeFrame h = [0x40, 0x20, 0xFB, 0xFF] :=
  C6_roundtrip 0x40 0x20 0xFB 0xFF (by decide) (by decide) (by decide)
    (by decide)

/-- C7: the decoder is deterministic — any two runs on the same buffer
produce the same result.  (In this embedding `DeserializeFrame` is a pure
function of the buffer alone, mirroring the Go body, which writes only to a
freshly allocated header and never to `fr` or any global state.) -/
theorem C7_deterministic (fr : List Nat) (r1 r2 : DecodeResult)
    (e1 : DeserializeFrame fr = r1) (e2 : DeserializeFrame fr = r2) :
    r1 = r2 := by
  rw [← e1, ← e2]

/-- Witness for C7 at the concrete buffer `0x40 0x20 0xFB 0xFF`. -/
theorem C7_deterministic_witness :
    DeserializeFrame [0x40, 0x20, 0xFB, 0xFF] =
      DecodeResult.ok (decodeBytes 0x40 0x20 0xFB 0xFF) :=
  C7_deterministic [0x40, 0x20, 0xFB, 0xFF]
    (DeserializeFrame [0x40, 0x20, 0xFB, 0xFF])
    (DecodeResult.ok (decodeBytes 0x40 0x20 0xFB 0xFF)) rfl rfl

/-- C8 counterexample: on a buffer of length exactly 4 the sentinel
replacement zeroes byte 3, which feeds the high 8 bits of frameSync, so the
decoded header changes — the claim fails for length-4 buffers. -/
theorem C8_counterexample :
    4 ≤ ([0xFF, 0xFF, 0xFF, 0xFF] : List Nat).length ∧
      DeserializeFrame (stripSentinel [0xFF, 0xFF, 0xFF, 0xFF]) ≠
        DeserializeFrame [0xFF, 0xFF, 0xFF, 0xFF] := by decide

/-- C8 (amended): for every buffer of length at least 5 — that is, whenever
the stripped last byte lies outside the 4-byte header window — decoding the
buffer with its last byte replaced by zero yields the same header as
decoding the original buffer. -/
theorem C8_sentinel_trailing : ∀ (fr : List Nat), 5 ≤ fr.length →
    DeserializeFrame (stripSentinel fr) = DeserializeFrame fr
  | v0 :: v1 :: v2 :: v3 :: w :: t, _ => by
    have hs : stripSentinel (v0 :: v1 :: v2 :: v3 :: w :: t) =
        v0 :: v1 :: v2 :: v3 :: ((w :: t).set t.length 0) := by
      simp [stripSentinel, List.set]
    rw [hs]
    rfl
  | [], h => absurd h (by simp)
  | [_], h => absurd h (by simp)
  | [_, _], h => absurd h (by simp)
  | [_, _, _], h => absurd h (by simp)
  | [_, _, _, _], h => absurd h (by simp)

/-- Witness for C8 at the concrete buffer `[1, 2, 3, 4, 5]`. -/
theorem C8_sentinel_trailing_witness :
    DeserializeFrame (stripSentinel [1, 2, 3, 4, 5]) =
      DeserializeFrame [1, 2, 3, 4, 5] :=
  C8_sentinel_trailing [1, 2, 3, 4, 5] (by decide)

/-- C9: each decoded field depends only on its source byte — agreement on
byte 0 forces the five `b0` fields to agree, agreement on byte 1 the four
`b1` fields, agreement on byte 2 the three `b2` fields, and agreement on
bytes 0, 1 and 2 (buffers differing at most in byte 3) forces every field
except possibly FrameSync to agree. -/
theorem C9_per_byte_dependence :
    (∀ (fr1 fr2 : List Nat) (h1 h2 : Mp3FrameHeader),
       DeserializeFrame fr1 = DecodeResult.ok h1 →
       DeserializeFrame fr2 = DecodeResult.ok h2 →
       fr1.getD 0 0 = fr2.getD 0 0 →
       h1.Emphasis = h2.Emphasis ∧ h1.Original = h2.Original ∧
         h1.Copyright = h2.Copyright ∧ h1.ModeExt = h2.ModeExt ∧
         h1.ChannelMode = h2.ChannelMode) ∧
    (∀ (fr1 fr2 : List Nat) (h1 h2 : Mp3FrameHeader),
       DeserializeFrame fr1 = DecodeResult.ok h1 →
       DeserializeFrame fr2 = DecodeResult.ok h2 →
       fr1.getD 1 0 = fr2.getD 1 0 →
       h1.Unused = h2.Unused ∧ h1.IsPadded = h2.IsPadded ∧
         h1.Srfi = h2.Srfi ∧ h1.BitrateIdx = h2.BitrateIdx) ∧
    (∀ (fr1 fr2 : List Nat) (h1 h2 : Mp3FrameHeader),
       DeserializeFrame fr1 = DecodeResult.ok h1 →
       DeserializeFrame fr2 = DecodeResult.ok h2 →
       fr1.getD 2 0 = fr2.getD 2 0 →
       h1.CrcProtected = h2.CrcProtected ∧ h1.LayerDesc = h2.LayerDesc ∧
         h1.AudioVer = h2.AudioVer) ∧
    (∀ (fr1 fr2 : List Nat) (h1 h2 : Mp3FrameHeader),
       DeserializeFrame fr1 = DecodeResult.ok h1 →
       DeserializeFrame fr2 = DecodeResult.ok h2 →
       fr1.getD 0 0 = fr2.getD 0 0 → fr1.getD 1 0 = fr2.getD 1 0 →
       fr1.getD 2 0 = fr2.getD 2 0 →
       h1.Emphasis = h2.Emphasis ∧ h1.Original = h2.Original ∧
         h1.Copyright = h2.Copyright ∧ h1.ModeExt = h2.ModeExt ∧
         h1.ChannelMode = h2.ChannelMode ∧ h1.Unused = h2.Unused ∧
         h1.IsPadded = h2.IsPadded ∧ h1.Srfi = h2.Srfi ∧
         h1.BitrateIdx = h2.BitrateIdx ∧ h1.CrcProtected = h2.CrcProtected ∧
         h1.LayerDesc = h2.LayerDesc ∧ h1.AudioVer = h2.AudioVer) := by
  refine ⟨?_, ?_, ?_, ?_⟩
  · intro fr1 fr2 h1 h2 e1 e2 g0
    obtain ⟨a0, a1, a2, a3, t1, rfl, rfl⟩ := dsf_ok_elim e1
    obtain ⟨b0, b1, b2, b3, t2, rfl, rfl⟩ := dsf_ok_elim e2
    have g : a0 = b0 := g0
    subst g
    exact ⟨rfl, rfl, rfl, rfl, rfl⟩
  · intro fr1 fr2 h1 h2 e1 e2 g1
    obtain ⟨a0, a1, a2, a3, t1, rfl, rfl⟩ := dsf_ok_elim e1
    obtain ⟨b0, b1, b2, b3, t2, rfl, rfl⟩ := dsf_ok_elim e2
    have g : a1 = b1 := g1
    subst g
    exact ⟨rfl, rfl, rfl, rfl⟩
  · intro fr1 fr2 h1 h2 e1 e2 g2
    obtain ⟨a0, a1, a2, a3, t1, rfl, rfl⟩ := dsf_ok_elim e1
    obtain ⟨b0, b1, b2, b3, t2, rfl, rfl⟩ := dsf_ok_elim e2
    have g : a2 = b2 := g2
    subst g
    exact ⟨rfl, rfl, rfl⟩
  · intro fr1 fr2 h1 h2 e1 e2 g0 g1 g2
    obtain ⟨a0, a1, a2, a3, t1, rfl, rfl⟩ := dsf_ok_elim e1
    obtain ⟨b0, b1, b2, b3, t2, rfl, rfl⟩ := dsf_ok_elim e2
    have ga : a0 = b0 := g0
    have gb : a1 = b1 := g1
    have gc : a2 = b2 := g2
    subst ga
    subst gb
    subst gc
    exact ⟨rfl, rfl, rfl, rfl, rfl, rfl, rfl, rfl, rfl, rfl, rfl, rfl⟩

/-- Witness for C9: concrete buffer pairs agreeing on single bytes. -/
theorem C9_per_byte_dependence_witness :
    (decodeBytes 5 0 0 0).Emphasis = (decodeBytes 5 9 9 9).Emphasis ∧
      (decodeBytes 7 5 0 0).Unused = (decodeBytes 9 5 9 9).Unused ∧
      (decodeBytes 7 7 5 0).CrcProtected =
        (decodeBytes 9 9 5 9).CrcProtected ∧
      (decodeBytes 1 2 3 4).Emphasis = (decodeBytes 1 2 3 9).Emphasis :=
  ⟨(C9_per_byte_dependence.1 [5, 0, 0, 0] [5, 9, 9, 9]
      (decodeBytes 5 0 0 0) (decodeBytes 5 9 9 9) rfl rfl rfl).1,
   (C9_per_byte_dependence.2.1 [7, 5, 0, 0] [9, 5, 9, 9]
      (decodeBytes 7 5 0 0) (decodeBytes 9 5 9 9) rfl rfl rfl).1,
   (C9_per_byte_dependence.2.2.1 [7, 7, 5, 0] [9, 9, 5, 9]
      (decodeBytes 7 7 5 0) (decodeBytes 9 9 5 9) rfl rfl rfl).1,
   (C9_per_byte_dependence.2.2.2 [1, 2, 3, 4] [1, 2, 3, 9]
      (decodeBytes 1 2 3 4) (decodeBytes 1 2 3 9) rfl rfl rfl rfl rfl).1⟩

/-- C10: when `Load` processes file contents of exactly 4 bytes, the sentinel
replacement zeroes byte 3 before the same buffer is decoded, so the decoded
header's FrameSync is at most 7 regardless of the file's actual last byte. -/
theorem C10_load_exact4 : ∀ (data : List Nat), data.length = 4 →
    ∀ h : Mp3FrameHeader, LoadDecode data = DecodeResult.ok h →
      h.FrameSync ≤ 7
  | [v0, v1, v2, v3], _ => by
    intro h e
    have hs : stripSentinel [v0, v1, v2, v3] = [v0, v1, v2, 0] := by
      simp [stripSentinel, List.set]
    rw [LoadDecode, hs, dsf_cons] at e
    have hh : decodeBytes v0 v1 v2 0 = h := by
      exact (DecodeResult.ok.injEq _ _ ▸ e)
    subst hh
    rw [decodeBytes_FrameSync]
    have hz : ((0 : Nat) % 256) <<< 3 = 0 := rfl
    rw [hz, Nat.or_zero]
    have := shiftRight5_lt (Nat.mod_lt v2 (show 0 < 256 by norm_num))
    omega
  | [], h => absurd h (by simp)
  | [_], h => absurd h (by simp)
  | [_, _], h => absurd h (by simp)
  | [_, _, _], h => absurd h (by simp)
  | _ :: _ :: _ :: _ :: _ :: _, h => absurd h (by simp)

/-- Witness for C10 at the concrete 4-byte file contents `0xFF 0xFF 0xFF
0xFF`. -/
theorem C10_load_exact4_witness :
    (decodeBytes 0xFF 0xFF 0xFF 0).FrameSync ≤ 7 :=
  C10_load_exact4 [0xFF, 0xFF, 0xFF, 0xFF] rfl (decodeBytes 0xFF 0xFF 0xFF 0)
    rfl

end Splotr
